import Mathlib

/-!
Verification of `python-sportdata` against its specification.

The development shallowly embeds the two modules of the repository:
* `sportdata/download/garmin_connect.py` — login handshake, paginated
  activity listing, per-activity download and bulk download;
* `sportdata/io/tcx.py` — TCX document parsing into Activity/Lap/Trackpoint
  records.

Network responses, the filesystem and external parsers (date and float
parsing) are modelled as explicit parameters/oracles; the control flow of
each function is translated statement by statement from the source.
-/

namespace Sportdata

/-! ## Login handshake (garmin_connect.py, `GarminConnectDownloader.login`) -/

/-- The possible `GCError` raise sites inside `login`. -/
inductive GCFailure where
  | step1 : GCFailure
  | step2 : GCFailure
  | castgcMissing : GCFailure
  | step3 : GCFailure
deriving DecidableEq, Repr

/-- The externally observable responses of the three HTTP round trips of
`login`: status of the GET of step 1, status of the credential POST of
step 2, the `CASTGC` cookie value if the POST set one, and the status of
the post-auth GET of step 3. -/
structure LoginResponses where
  status1 : Nat
  status2 : Nat
  castgc : Option (List Char)
  status3 : Nat
deriving DecidableEq, Repr

/-- Line 88 of garmin_connect.py: the transformation
`login_ticket = 'ST-0' + self.session.cookies['CASTGC'][4:]`. -/
def mkLoginTicket (castgc : List Char) : List Char :=
  "ST-0".data ++ castgc.drop 4

/-- `GarminConnectDownloader.login`, lines 58-94: check status of step 1,
check status of step 2, check presence of the `CASTGC` cookie, build the
service ticket, check status of step 3, and only then set `logged_in`.
Errors are the `GCError` raises of the source. -/
def login (r : LoginResponses) : Except GCFailure Unit :=
  if r.status1 ≠ 200 then .error .step1
  else if r.status2 ≠ 200 then .error .step2
  else
    match r.castgc with
    | none => .error .castgcMissing
    | some _tgt =>
      if r.status3 ≠ 200 then .error .step3
      else .ok ()

/-- The `logged_in` flag after `login` returns or raises: it starts `false`
and the only assignment `self.logged_in = True` is the last statement of
`login`, so the flag is set exactly when `login` returns normally. -/
def loggedInAfter (r : LoginResponses) : Bool :=
  match login r with
  | .ok _ => true
  | .error _ => false

/-! ## Download of a single activity (`GarminConnectDownloader.download`) -/

/-- Files on disk: an association list from filename to content
(most recent write first). -/
abbrev Files := List (String × List Nat)

def fileExists (files : Files) (name : String) : Bool :=
  files.any (fun p => p.1 == name)

def writeFile (files : Files) (name : String) (content : List Nat) : Files :=
  (name, content) :: files

/-- Outcome of `download`: normal return, `GCFiletypeError`, or `GCError`. -/
inductive DownloadResult where
  | ok : DownloadResult
  | filetypeError : DownloadResult
  | gcError : DownloadResult
deriving DecidableEq, Repr

/-- The body written by the loop
`for chunk in r.iter_content(...): if chunk: f.write(chunk)`:
non-empty chunks are appended in order to the (truncated) file. -/
def writtenContent (chunks : List (List Nat)) : List Nat :=
  chunks.foldl (fun acc c => if c.isEmpty then acc else acc ++ c) []

/-- `GarminConnectDownloader.download`, lines 148-184.  The HTTP response
for the chosen URL is modelled by its status code and its chunked body.
`assert filetype in ('gpx', 'tcx', 'fit')` is an `AssertionError`
(modelled as `none`); a 204 status raises `GCFiletypeError`; any other
non-200 status raises `GCError`; on 200 the destination file is opened
('wb', truncating) and the non-empty chunks are written. -/
def download (filetype : String) (status : Nat) (chunks : List (List Nat))
    (out_fname : String) (files : Files) : Option (DownloadResult × Files) :=
  if filetype = "gpx" ∨ filetype = "tcx" ∨ filetype = "fit" then
    if status = 204 then some (.filetypeError, files)
    else if status ≠ 200 then some (.gcError, files)
    else some (.ok, writeFile files out_fname (writtenContent chunks))
  else none

/-! ## Paginated listing (`GarminConnectDownloader.get_all_activities`) -/

/-- The search backend as seen by `get_all_activities`: for a page request
at a given offset, `pages start` is the `activities` component returned by
`get_activities start GC_ACTIVITIES_LIMIT`, and `total` (fixed) is the
reported `total_activities`. -/
def getAllActivitiesLoop (pages : Nat → List α) (total : Nat) :
    Nat → Nat → Option (List α)
  | 0, _ => none
  | fuel + 1, start =>
    let acts := pages start
    if total ≤ start + acts.length then some acts
    else
      (getAllActivitiesLoop pages total fuel (start + acts.length)).map
        (fun rest => acts ++ rest)

/-- `GarminConnectDownloader.get_all_activities`, lines 128-146: starting
at offset 0, fetch a page, append it, advance the offset by the page
length, and stop as soon as the offset reaches the reported total.  The
unbounded Python `while True` loop is given explicit fuel; `none` means
the fuel ran out before the loop broke. -/
def get_all_activities (pages : Nat → List α) (total fuel : Nat) :
    Option (List α) :=
  getAllActivitiesLoop pages total fuel 0

/-- Restatement of the specification's description of the result ("the
concatenation of all pages, starting at offset 0 and advancing the offset
by the number of items each page returned, until the cumulative offset
reaches the reported total"), to be compared with `get_all_activities`. -/
def pagesFrom (pages : Nat → List α) (total : Nat) : Nat → Nat → List α
  | 0, _ => []
  | fuel + 1, off =>
    if total ≤ off then []
    else pages off ++ pagesFrom pages total fuel (off + (pages off).length)

/-- A concrete two-page server used by witnesses: total 2, one item per
page. -/
def twoItemServer (s : Nat) : List Nat :=
  if s < 2 then [s] else []

/-! ## Bulk download (`GarminConnectDownloader.download_all`) -/

/-- The parts of one JSON activity description that `download_all` reads:
`act['activity']['activityId']`, `act['activity']['activityName']['value']`
(used only in log messages) and the raw record serialized to the sidecar
file by `json.dump`. -/
structure ActivityJson where
  activityId : String
  activityName : String
  meta : List Nat
deriving DecidableEq, Repr

/-- Line 210-211: `'activity_%s.%s' % (act_id, filetype)` joined to the
output directory (the fixed directory prefix is dropped, it is common to
all names). -/
def dataFilename (act : ActivityJson) (filetype : String) : String :=
  "activity_" ++ act.activityId ++ "." ++ filetype

/-- Line 212: `'activity_%s.json' % act_id`. -/
def jsonFilename (act : ActivityJson) : String :=
  "activity_" ++ act.activityId ++ ".json"

/-- How the per-activity body of `download_all` ended for one activity. -/
inductive ActOutcome where
  | skipped : ActOutcome
  | downloaded : ActOutcome
  | failed : ActOutcome
  | assertRaised : ActOutcome
deriving DecidableEq, Repr

/-- The per-activity body of `download_all` (lines 207-233).  `resp act_id`
is the HTTP response (status, chunked body) the session returns for the
download URL of that activity.  Write the sidecar JSON file unless it
already exists; skip if the data file already exists; otherwise call
`download`: a normal return is a download, `GCError`/`GCFiletypeError`
is a failure, and an `AssertionError` escapes the `except` clause. -/
def processActivity (resp : String → Nat × List (List Nat)) (filetype : String)
    (act : ActivityJson) (files : Files) : Files × ActOutcome :=
  let files1 := if fileExists files (jsonFilename act) then files
                else writeFile files (jsonFilename act) act.meta
  if fileExists files1 (dataFilename act filetype) then (files1, .skipped)
  else
    match download filetype (resp act.activityId).1 (resp act.activityId).2
        (dataFilename act filetype) files1 with
    | none => (files1, .assertRaised)
    | some (.ok, files2) => (files2, .downloaded)
    | some (_, files2) => (files2, .failed)

/-- The `for act in activities` loop of `download_all`: run the
per-activity body on each activity, bumping the counter matching its
outcome; a failure aborts (`none`, the exception re-raised) unless
`continue_on_fail` is set; an assertion always aborts. -/
def downloadAllLoop (resp : String → Nat × List (List Nat)) (filetype : String)
    (cont : Bool) :
    List ActivityJson → Files → Nat → Nat → Nat →
      Option (Files × Nat × Nat × Nat)
  | [], files, d, s, e => some (files, d, s, e)
  | act :: rest, files, d, s, e =>
    match processActivity resp filetype act files with
    | (files1, .skipped) =>
      downloadAllLoop resp filetype cont rest files1 d (s + 1) e
    | (files1, .downloaded) =>
      downloadAllLoop resp filetype cont rest files1 (d + 1) s e
    | (files1, .failed) =>
      if cont then downloadAllLoop resp filetype cont rest files1 d s (e + 1)
      else none
    | (_, .assertRaised) => none

/-- `GarminConnectDownloader.download_all`, lines 186-236: iterate the
per-activity body over the fetched activity list with all three counters
starting at 0, returning `(files, n_downloaded, n_skipped, n_error)`. -/
def download_all (resp : String → Nat × List (List Nat)) (filetype : String)
    (cont : Bool) (activities : List ActivityJson) (files : Files) :
    Option (Files × Nat × Nat × Nat) :=
  downloadAllLoop resp filetype cont activities files 0 0 0

/-! ## TCX parsing (sportdata/io/tcx.py)

XML elements are modelled structurally: an optional child/attribute is an
`Option`; accessing a missing required child (`elm.Time`, `elm.attrib[...]`)
raises in Python, which the embedding renders as `Option.none` propagation.
The external parsers `dateutil.parser.parse` and Python's `float` are
passed in as oracles `pd`/`pf : String → Option Int` (a `none` result is a
raised parse exception; the value domain is opaque to the claims). -/

/-- A `Position` sub-element with its two (possibly missing) coordinate
children `LatitudeDegrees` and `LongitudeDegrees`. -/
structure XmlPosition where
  latitudeDegrees : Option String
  longitudeDegrees : Option String
deriving DecidableEq, Repr

/-- A `Trackpoint` element: optional `Time` child (required by the parser),
optional `Position` sub-element, optional `AltitudeMeters` and
`DistanceMeters` children (kept as raw elements by the parser). -/
structure XmlTrackpoint where
  time : Option String
  position : Option XmlPosition
  altitude : Option String
  distance : Option String
deriving DecidableEq, Repr

/-- A `Lap` element: optional `StartTime` attribute (required by the
parser), `TotalTimeSeconds` / `DistanceMeters` / `Calories` children
(required by the parser), optional `MaximumSpeed` child, optional `Track`
sub-element with its children in document order. -/
structure XmlLap where
  startTime : Option String
  totalTimeSeconds : Option String
  distanceMeters : Option String
  calories : Option String
  maximumSpeed : Option String
  track : Option (List XmlTrackpoint)
deriving DecidableEq, Repr

/-- An `Activity` element: optional `Sport` attribute and `Id` child (both
required by the parser), `Lap` children in document order. -/
structure XmlActivity where
  sport : Option String
  idText : Option String
  laps : List XmlLap
deriving DecidableEq, Repr

/-- A parsed document: the list of namespace-qualified `Activity` elements
selected by the xpath query, in document order. -/
structure TCXDoc where
  activityElems : List XmlActivity
deriving DecidableEq, Repr

/-- The in-memory `Trackpoint` record built by `Trackpoint.__init__`
(tcx.py lines 27-37): parsed time, the latlng pair (set together or not at
all), and the raw optional altitude/distance elements. -/
structure Trackpoint where
  time : Int
  latlng : Option (String × String)
  altitude : Option String
  distance : Option String
deriving DecidableEq, Repr

/-- The in-memory `Lap` record built by `Lap.__init__` (tcx.py lines
40-52). -/
structure Lap where
  start_time : Int
  duration : Int
  distance : Int
  calories : Int
  max_speed : Option String
  trackpoints : List Trackpoint
deriving DecidableEq, Repr

/-- The in-memory `Activity` record built by `Activity.__init__` (tcx.py
lines 60-66). -/
structure Activity where
  sport : String
  time : Int
  laps : List Lap
deriving DecidableEq, Repr

/-- A Python list comprehension `[f(e) for e in xs]` over a fallible `f`:
the whole comprehension raises as soon as one element raises. -/
def parseList (f : α → Option β) : List α → Option (List β)
  | [] => some []
  | a :: as =>
    match f a, parseList f as with
    | some b, some bs => some (b :: bs)
    | _, _ => none

/-- `Trackpoint.__init__`: parse the required `Time` child with the date
parser; if a `Position` sub-element is present, read both coordinate
children (raising if either is missing) and set `latlng` to the pair,
otherwise leave `latlng` unset; keep altitude/distance as raw optional
elements. -/
def parseTrackpoint (pd : String → Option Int) (x : XmlTrackpoint) :
    Option Trackpoint :=
  match x.time with
  | none => none
  | some ts =>
    match pd ts with
    | none => none
    | some t =>
      match x.position with
      | some p =>
        match p.latitudeDegrees, p.longitudeDegrees with
        | some la, some lo => some ⟨t, some (la, lo), x.altitude, x.distance⟩
        | _, _ => none
      | none => some ⟨t, none, x.altitude, x.distance⟩

/-- `Lap.__init__`: parse the required `StartTime` attribute as a date;
convert the required `TotalTimeSeconds`, `DistanceMeters` and `Calories`
children with `float`; keep the optional `MaximumSpeed` as a raw element;
build trackpoints from all children of the optional `Track` sub-element in
document order, or the empty list when `Track` is absent. -/
def parseLap (pd pf : String → Option Int) (x : XmlLap) : Option Lap :=
  match x.startTime with
  | none => none
  | some sts =>
    match pd sts with
    | none => none
    | some st =>
      match x.totalTimeSeconds with
      | none => none
      | some durs =>
        match pf durs with
        | none => none
        | some dur =>
          match x.distanceMeters with
          | none => none
          | some dists =>
            match pf dists with
            | none => none
            | some dist =>
              match x.calories with
              | none => none
              | some cals =>
                match pf cals with
                | none => none
                | some cal =>
                  match x.track with
                  | some es =>
                    match parseList (parseTrackpoint pd) es with
                    | none => none
                    | some tps =>
                      some ⟨st, dur, dist, cal, x.maximumSpeed, tps⟩
                  | none => some ⟨st, dur, dist, cal, x.maximumSpeed, []⟩

/-- `Activity.__init__`: required `Sport` attribute, required `Id` child
parsed as a date, laps from all `Lap` children in document order.  The
iteration `[Lap(e) for e in elm.Lap]` starts by accessing the `Lap`
attribute, which raises when the element has zero `Lap` children, so an
empty lap list is a parse failure. -/
def parseActivity (pd pf : String → Option Int) (x : XmlActivity) :
    Option Activity :=
  match x.sport with
  | none => none
  | some sp =>
    match x.idText with
    | none => none
    | some ids =>
      match pd ids with
      | none => none
      | some t =>
        match x.laps with
        | [] => none
        | _ :: _ =>
          match parseList (parseLap pd pf) x.laps with
          | none => none
          | some laps => some ⟨sp, t, laps⟩

/-- `load_activities` (tcx.py lines 69-77): map every namespace-qualified
`Activity` element of the document into an `Activity` record. -/
def load_activities (pd pf : String → Option Int) (doc : TCXDoc) :
    Option (List Activity) :=
  parseList (parseActivity pd pf) doc.activityElems

/-- The two ways `load_activity` can fail: a parse exception propagated
from `load_activities`, or the `assert len(activities) == 1` failing. -/
inductive LoadFailure where
  | parseRaised : LoadFailure
  | assertionFailed : LoadFailure
deriving DecidableEq, Repr

/-- `load_activity` (tcx.py lines 80-91): run `load_activities`, assert
that exactly one activity was found, and return it. -/
def load_activity (pd pf : String → Option Int) (doc : TCXDoc) :
    Except LoadFailure Activity :=
  match load_activities pd pf doc with
  | none => .error .parseRaised
  | some activities =>
    match activities with
    | [a] => .ok a
    | _ => .error .assertionFailed

end Sportdata

namespace Sportdata

/-! ### Helper lemmas -/

/-- `parseList` preserves the element count when it succeeds. -/
lemma parseList_length {f : α → Option β} :
    ∀ {xs : List α} {ys : List β}, parseList f xs = some ys →
      ys.length = xs.length := by
  intro xs
  induction xs with
  | nil => intro ys h; simp [parseList] at h; simp [← h]
  | cons a as ih =>
    intro ys h
    simp only [parseList] at h
    cases hfa : f a with
    | none => rw [hfa] at h; simp at h
    | some b =>
      rw [hfa] at h
      cases has : parseList f as with
      | none => rw [has] at h; simp at h
      | some bs =>
        rw [has] at h
        simp only [Option.some.injEq] at h
        rw [← h]
        simp [ih has]

lemma writtenContent_aux (chunks : List (List Nat)) (acc : List Nat) :
    chunks.foldl (fun acc c => if c.isEmpty then acc else acc ++ c) acc
      = acc ++ chunks.flatten := by
  induction chunks generalizing acc with
  | nil => simp
  | cons c cs ih =>
    simp only [List.foldl_cons, List.flatten_cons]
    by_cases hc : c.isEmpty
    · have hce : c = [] := List.isEmpty_iff.mp hc
      rw [if_pos hc, ih, hce, List.nil_append]
    · rw [if_neg hc, ih, List.append_assoc]

/-- The chunked write loop deposits exactly the concatenation of all chunks
(skipping empty chunks does not change the concatenation). -/
lemma writtenContent_eq_flatten (chunks : List (List Nat)) :
    writtenContent chunks = chunks.flatten := by
  rw [writtenContent, writtenContent_aux, List.nil_append]

/-! ### Theorems for the login and single-download claims -/

/-- C8: for every granting-ticket cookie value of length at least 4, the
service ticket of login step 3 is the cookie value with its first 4
characters replaced by the fixed 4-character prefix "ST-0" (which differs
from the "TGT-" prefix it replaces); the remaining characters and the
total length are unchanged. -/
theorem mkLoginTicket_spec (castgc : List Char) (h : 4 ≤ castgc.length) :
    (mkLoginTicket castgc).take 4 = "ST-0".data ∧
    (mkLoginTicket castgc).drop 4 = castgc.drop 4 ∧
    (mkLoginTicket castgc).length = castgc.length ∧
    "ST-0".data.length = 4 ∧ "ST-0".data ≠ "TGT-".data := by
  have hst : ("ST-0".data).length = 4 := by decide
  refine ⟨?_, ?_, ?_, hst, by decide⟩
  · rw [mkLoginTicket, ← hst, List.take_left]
  · rw [mkLoginTicket, ← hst, List.drop_left]
  · rw [mkLoginTicket, List.length_append, hst, List.length_drop]
    omega

/-- Witness for C8 at a concrete cookie value. -/
theorem mkLoginTicket_spec_witness :
    (mkLoginTicket "TGT-abc".data).take 4 = "ST-0".data ∧
    (mkLoginTicket "TGT-abc".data).drop 4 = "TGT-abc".data.drop 4 ∧
    (mkLoginTicket "TGT-abc".data).length = "TGT-abc".data.length ∧
    "ST-0".data.length = 4 ∧ "ST-0".data ≠ "TGT-".data :=
  mkLoginTicket_spec "TGT-abc".data (by decide)

/-- C4: the session ends up authenticated exactly when all three handshake
statuses are 200 and the `CASTGC` cookie is present after the credential
POST; and when step 1 and the credential POST return 200 but the cookie is
absent, `login` raises `GCError` (at the cookie check) and the `logged_in`
flag stays unset. -/
theorem login_spec (r : LoginResponses) :
    (loggedInAfter r = true ↔
      (r.status1 = 200 ∧ r.status2 = 200 ∧ r.castgc.isSome ∧ r.status3 = 200)) ∧
    (r.status1 = 200 → r.status2 = 200 → r.castgc = none →
      login r = .error .castgcMissing ∧ loggedInAfter r = false) := by
  constructor
  · unfold loggedInAfter login
    rcases r with ⟨s1, s2, cg, s3⟩
    by_cases h1 : s1 = 200 <;> by_cases h2 : s2 = 200 <;>
      cases cg <;> by_cases h3 : s3 = 200 <;>
      simp [h1, h2, h3]
  · intro h1 h2 hcg
    unfold loggedInAfter login
    rcases r with ⟨s1, s2, cg, s3⟩
    simp only at h1 h2 hcg
    subst h1 h2 hcg
    simp

/-- Witness for C4 at a concrete response sequence (200/200 with the
cookie missing). -/
theorem login_spec_witness :
    login ⟨200, 200, none, 200⟩ = .error .castgcMissing ∧
    loggedInAfter ⟨200, 200, none, 200⟩ = false :=
  (login_spec ⟨200, 200, none, 200⟩).2 rfl rfl rfl

/-- C3: for a recognized filetype, `download` raises `GCFiletypeError`
exactly on status 204; any other non-200 status raises `GCError`; and a
200 status raises neither and writes the whole body (the concatenation of
the chunks) to the destination. -/
theorem download_status_spec (filetype : String) (status : Nat)
    (chunks : List (List Nat)) (out_fname : String) (files : Files)
    (hft : filetype = "gpx" ∨ filetype = "tcx" ∨ filetype = "fit") :
    ∃ res files', download filetype status chunks out_fname files = some (res, files') ∧
      ((res = .filetypeError ↔ status = 204) ∧
       (status ≠ 204 → status ≠ 200 → res = .gcError ∧ files' = files) ∧
       (status = 200 →
         res = .ok ∧ files' = writeFile files out_fname chunks.flatten)) := by
  unfold download
  rw [if_pos hft]
  by_cases h204 : status = 204
  · exact ⟨.filetypeError, files, by simp [h204], by simp [h204],
      fun h _ => absurd h204 h, fun h => by omega⟩
  · by_cases h200 : status = 200
    · refine ⟨.ok, writeFile files out_fname (writtenContent chunks),
        by simp [h204, h200], by simp [h204], fun _ h => absurd h200 h,
        fun _ => ⟨rfl, ?_⟩⟩
      rw [writtenContent_eq_flatten]
    · exact ⟨.gcError, files, by simp [h204, h200], by simp [h204],
        fun _ _ => ⟨rfl, rfl⟩, fun h => absurd h h200⟩

/-- Witness for C3 at a concrete 204 response. -/
theorem download_status_spec_witness :
    ∃ res files', download "tcx" 204 [[1, 2]] "out" [] = some (res, files') ∧
      ((res = .filetypeError ↔ (204 : Nat) = 204) ∧
       ((204 : Nat) ≠ 204 → (204 : Nat) ≠ 200 → res = .gcError ∧ files' = []) ∧
       ((204 : Nat) = 200 →
         res = .ok ∧ files' = writeFile [] "out" ([[1, 2]] : List (List Nat)).flatten)) :=
  download_status_spec "tcx" 204 [[1, 2]] "out" [] (Or.inr (Or.inl rfl))

/-- C10: whenever `download` raises (status 204 or any other non-200), the
filesystem is unchanged: the destination file is not created and not
written, because the destination is only opened after the status checks
have passed. -/
theorem download_error_no_write (filetype : String) (status : Nat)
    (chunks : List (List Nat)) (out_fname : String) (files : Files)
    (hft : filetype = "gpx" ∨ filetype = "tcx" ∨ filetype = "fit")
    (hstatus : status ≠ 200) :
    ∃ res, download filetype status chunks out_fname files = some (res, files) ∧
      res ≠ .ok := by
  unfold download
  rw [if_pos hft]
  by_cases h204 : status = 204
  · exact ⟨.filetypeError, by simp [h204], by simp⟩
  · exact ⟨.gcError, by simp [h204, hstatus], by simp⟩

/-- Witness for C10 at a concrete 500 response: the file list is unchanged. -/
theorem download_error_no_write_witness :
    ∃ res, download "fit" 500 [[7]] "dest" [("other", [])] =
        some (res, [("other", [])]) ∧ res ≠ .ok :=
  download_error_no_write "fit" 500 [[7]] "dest" [("other", [])]
    (Or.inr (Or.inr rfl)) (by decide)

/-- C6: for every successfully parsed Trackpoint, the latlng field is a
complete pair — present exactly when the element has a `Position`
sub-element with both coordinate children, whose values it carries — or
entirely unset when `Position` is absent; a `Position` with a missing
coordinate child never yields a partial pair (the parse raises instead). -/
theorem trackpoint_latlng_complete (pd : String → Option Int)
    (x : XmlTrackpoint) (tp : Trackpoint)
    (h : parseTrackpoint pd x = some tp) :
    (∃ p la lo, x.position = some p ∧ p.latitudeDegrees = some la ∧
        p.longitudeDegrees = some lo ∧ tp.latlng = some (la, lo)) ∨
    (x.position = none ∧ tp.latlng = none) := by
  cases hts : x.time with
  | none => simp [parseTrackpoint, hts] at h
  | some ts =>
    cases hpd : pd ts with
    | none => simp [parseTrackpoint, hts, hpd] at h
    | some t =>
      cases hpos : x.position with
      | none =>
        right
        simp only [parseTrackpoint, hts, hpd, hpos, Option.some.injEq] at h
        exact ⟨rfl, by rw [← h]⟩
      | some p =>
        left
        cases hla : p.latitudeDegrees with
        | none => simp [parseTrackpoint, hts, hpd, hpos, hla] at h
        | some la =>
          cases hlo : p.longitudeDegrees with
          | none => simp [parseTrackpoint, hts, hpd, hpos, hla, hlo] at h
          | some lo =>
            refine ⟨p, la, lo, rfl, hla, hlo, ?_⟩
            simp only [parseTrackpoint, hts, hpd, hpos, hla, hlo,
              Option.some.injEq] at h
            rw [← h]

/-- Witness for C6 at a concrete Trackpoint element without a `Position`
sub-element. -/
theorem trackpoint_latlng_complete_witness :
    (∃ p la lo, (⟨some "t", none, none, none⟩ : XmlTrackpoint).position = some p ∧
        p.latitudeDegrees = some la ∧ p.longitudeDegrees = some lo ∧
        (⟨0, none, none, none⟩ : Trackpoint).latlng = some (la, lo)) ∨
    ((⟨some "t", none, none, none⟩ : XmlTrackpoint).position = none ∧
     (⟨0, none, none, none⟩ : Trackpoint).latlng = none) :=
  trackpoint_latlng_complete (fun _ => some 0) ⟨some "t", none, none, none⟩
    ⟨0, none, none, none⟩ rfl

/-- C7: a Lap element parses successfully only with its start time from
the required `StartTime` attribute, duration, distance and calories
converted from required child elements (absence of any of these is a
parse error), max speed carried over from the optional child (unset if
absent), and trackpoints from all children of the optional `Track`
sub-element in document order, or the empty list when `Track` is absent. -/
theorem parseLap_spec (pd pf : String → Option Int) (x : XmlLap) :
    (∀ l, parseLap pd pf x = some l →
      (∃ sts, x.startTime = some sts ∧ pd sts = some l.start_time) ∧
      (∃ ds, x.totalTimeSeconds = some ds ∧ pf ds = some l.duration) ∧
      (∃ ms, x.distanceMeters = some ms ∧ pf ms = some l.distance) ∧
      (∃ cs, x.calories = some cs ∧ pf cs = some l.calories) ∧
      l.max_speed = x.maximumSpeed ∧
      ((x.track = none ∧ l.trackpoints = []) ∨
       (∃ es, x.track = some es ∧
          parseList (parseTrackpoint pd) es = some l.trackpoints))) ∧
    ((x.startTime = none ∨ x.totalTimeSeconds = none ∨
      x.distanceMeters = none ∨ x.calories = none) →
      parseLap pd pf x = none) := by
  constructor
  · intro l h
    cases hst : x.startTime with
    | none => simp [parseLap, hst] at h
    | some sts =>
    cases hpd : pd sts with
    | none => simp [parseLap, hst, hpd] at h
    | some st =>
    cases hdur : x.totalTimeSeconds with
    | none => simp [parseLap, hst, hpd, hdur] at h
    | some durs =>
    cases hpfd : pf durs with
    | none => simp [parseLap, hst, hpd, hdur, hpfd] at h
    | some dur =>
    cases hdm : x.distanceMeters with
    | none => simp [parseLap, hst, hpd, hdur, hpfd, hdm] at h
    | some dms =>
    cases hpfm : pf dms with
    | none => simp [parseLap, hst, hpd, hdur, hpfd, hdm, hpfm] at h
    | some dist =>
    cases hcal : x.calories with
    | none => simp [parseLap, hst, hpd, hdur, hpfd, hdm, hpfm, hcal] at h
    | some cals =>
    cases hpfc : pf cals with
    | none => simp [parseLap, hst, hpd, hdur, hpfd, hdm, hpfm, hcal, hpfc] at h
    | some cal =>
    cases htr : x.track with
    | none =>
      simp only [parseLap, hst, hpd, hdur, hpfd, hdm, hpfm, hcal, hpfc, htr,
        Option.some.injEq] at h
      rw [← h]
      exact ⟨⟨sts, rfl, hpd⟩, ⟨durs, rfl, hpfd⟩, ⟨dms, rfl, hpfm⟩,
        ⟨cals, rfl, hpfc⟩, rfl, Or.inl ⟨rfl, rfl⟩⟩
    | some es =>
      cases hpl : parseList (parseTrackpoint pd) es with
      | none =>
        simp [parseLap, hst, hpd, hdur, hpfd, hdm, hpfm, hcal, hpfc, htr,
          hpl] at h
      | some tps =>
        simp only [parseLap, hst, hpd, hdur, hpfd, hdm, hpfm, hcal, hpfc, htr,
          hpl, Option.some.injEq] at h
        rw [← h]
        exact ⟨⟨sts, rfl, hpd⟩, ⟨durs, rfl, hpfd⟩, ⟨dms, rfl, hpfm⟩,
          ⟨cals, rfl, hpfc⟩, rfl, Or.inr ⟨es, rfl, hpl⟩⟩
  · intro hmiss
    rcases hmiss with hst | hdur | hdm | hcal
    · simp [parseLap, hst]
    · cases hst : x.startTime with
      | none => simp [parseLap, hst]
      | some sts =>
        cases hpd : pd sts with
        | none => simp [parseLap, hst, hpd]
        | some st => simp [parseLap, hst, hpd, hdur]
    · cases hst : x.startTime with
      | none => simp [parseLap, hst]
      | some sts =>
      cases hpd : pd sts with
      | none => simp [parseLap, hst, hpd]
      | some st =>
      cases hdur : x.totalTimeSeconds with
      | none => simp [parseLap, hst, hpd, hdur]
      | some durs =>
      cases hpfd : pf durs with
      | none => simp [parseLap, hst, hpd, hdur, hpfd]
      | some dur => simp [parseLap, hst, hpd, hdur, hpfd, hdm]
    · cases hst : x.startTime with
      | none => simp [parseLap, hst]
      | some sts =>
      cases hpd : pd sts with
      | none => simp [parseLap, hst, hpd]
      | some st =>
      cases hdur : x.totalTimeSeconds with
      | none => simp [parseLap, hst, hpd, hdur]
      | some durs =>
      cases hpfd : pf durs with
      | none => simp [parseLap, hst, hpd, hdur, hpfd]
      | some dur =>
      cases hdm : x.distanceMeters with
      | none => simp [parseLap, hst, hpd, hdur, hpfd, hdm]
      | some dms =>
      cases hpfm : pf dms with
      | none => simp [parseLap, hst, hpd, hdur, hpfd, hdm, hpfm]
      | some dist => simp [parseLap, hst, hpd, hdur, hpfd, hdm, hpfm, hcal]

/-- Witness for C7 at a concrete Lap element with all required fields and
no `Track` sub-element: the parse succeeds and the conclusion holds. -/
theorem parseLap_spec_witness :
    parseLap (fun _ => some 0) (fun _ => some 1)
      ⟨some "st", some "10", some "100", some "5", none, none⟩ =
      some ⟨0, 1, 1, 1, none, []⟩ ∧
    ((⟨some "st", some "10", some "100", some "5", none, none⟩ : XmlLap).track
        = none ∧ (⟨0, 1, 1, 1, none, []⟩ : Lap).trackpoints = []) := by
  refine ⟨rfl, ?_⟩
  have h := (parseLap_spec (fun _ => some 0) (fun _ => some 1)
    ⟨some "st", some "10", some "100", some "5", none, none⟩).1
    ⟨0, 1, 1, 1, none, []⟩ rfl
  rcases h.2.2.2.2.2 with htr | ⟨es, hes, _⟩
  · exact htr
  · exact absurd hes (by simp)

/-- C5: when every Activity element of the document parses, `load_activity`
returns the single parsed Activity exactly when the document contains one
Activity element, and fails with the assertion (not a parse error) when it
contains zero or more than one. -/
theorem load_activity_spec (pd pf : String → Option Int) (doc : TCXDoc)
    (acts : List Activity) (hp : load_activities pd pf doc = some acts) :
    (doc.activityElems.length = 1 →
      ∃ a, acts = [a] ∧ load_activity pd pf doc = .ok a) ∧
    (doc.activityElems.length ≠ 1 →
      load_activity pd pf doc = .error .assertionFailed) := by
  have hlen : acts.length = doc.activityElems.length := parseList_length hp
  constructor
  · intro h1
    rw [h1] at hlen
    match acts, hlen with
    | [a], _ =>
      exact ⟨a, rfl, by simp [load_activity, hp]⟩
  · intro hne
    rw [← hlen] at hne
    unfold load_activity
    rw [hp]
    match acts, hne with
    | [], _ => rfl
    | a :: b :: t, _ => rfl
    | [a], hne => exact absurd rfl hne

/-- Witness for C5: a document with exactly one parsable Activity element
(carrying one complete Lap) yields that activity. -/
theorem load_activity_spec_witness :
    ∃ a, ([⟨"run", 0, [⟨0, 1, 1, 1, none, []⟩]⟩] : List Activity) = [a] ∧
      load_activity (fun _ => some 0) (fun _ => some 1)
        ⟨[⟨some "run", some "2017",
           [⟨some "st", some "10", some "100", some "5", none, none⟩]⟩]⟩
        = .ok a :=
  (load_activity_spec (fun _ => some 0) (fun _ => some 1)
    ⟨[⟨some "run", some "2017",
       [⟨some "st", some "10", some "100", some "5", none, none⟩]⟩]⟩
    [⟨"run", 0, [⟨0, 1, 1, 1, none, []⟩]⟩] rfl).1 rfl

/-- Past the reported total the spec-side concatenation is empty. -/
lemma pagesFrom_of_total_le {α : Type} (pages : Nat → List α) (total : Nat) :
    ∀ fuel off, total ≤ off → pagesFrom pages total fuel off = [] := by
  intro fuel off h
  cases fuel with
  | zero => rfl
  | succ fuel => simp [pagesFrom, h]

/-- Main loop invariant for `get_all_activities`: with well-formed pages
(each page before the total is non-empty and never overshoots the total),
enough fuel makes the loop return exactly the spec-side concatenation,
whose length is the number of remaining records. -/
lemma getAllActivitiesLoop_correct {α : Type} (pages : Nat → List α)
    (total : Nat)
    (h1 : ∀ s, s < total → 0 < (pages s).length)
    (h2 : ∀ s, s ≤ total → s + (pages s).length ≤ total) :
    ∀ fuel start, start ≤ total → total - start < fuel →
      getAllActivitiesLoop pages total fuel start =
        some (pagesFrom pages total fuel start) ∧
      (pagesFrom pages total fuel start).length = total - start := by
  intro fuel
  induction fuel with
  | zero => intro start _ hf; omega
  | succ fuel ih =>
    intro start hs hf
    have hle := h2 start hs
    by_cases hterm : total ≤ start + (pages start).length
    · rcases Nat.lt_or_ge start total with hlt | hge
      · have hlen : (pages start).length = total - start := by omega
        constructor
        · simp only [getAllActivitiesLoop, pagesFrom]
          rw [if_pos hterm, if_neg (by omega : ¬ total ≤ start),
            pagesFrom_of_total_le pages total fuel _ (by omega),
            List.append_nil]
        · simp only [pagesFrom]
          rw [if_neg (by omega : ¬ total ≤ start),
            pagesFrom_of_total_le pages total fuel _ (by omega),
            List.append_nil, hlen]
      · have hlen0 : (pages start).length = 0 := by omega
        constructor
        · simp only [getAllActivitiesLoop, pagesFrom]
          rw [if_pos hterm, if_pos (by omega : total ≤ start)]
          rw [List.length_eq_zero.mp hlen0]
        · simp only [pagesFrom]
          rw [if_pos (by omega : total ≤ start)]
          simp
          omega
    · have hlt : start < total := by omega
      have hpos := h1 start hlt
      have hs' : start + (pages start).length ≤ total := by omega
      have hf' : total - (start + (pages start).length) < fuel := by omega
      obtain ⟨ihl, ihlen⟩ := ih (start + (pages start).length) hs' hf'
      constructor
      · simp only [getAllActivitiesLoop, pagesFrom]
        rw [if_neg hterm, if_neg (by omega : ¬ total ≤ start), ihl,
          Option.map_some']
      · simp only [pagesFrom]
        rw [if_neg (by omega : ¬ total ≤ start), List.length_append, ihlen]
        omega

/-- C1: when every page before the reported total is non-empty and page
sizes sum to the total without overshooting (so the total is reachable),
`get_all_activities` terminates (fuel `total + 1` suffices) and returns
the in-order concatenation of the pages, starting at offset 0 and
advancing the offset by each page's length; the result has exactly
`total` records. -/
theorem get_all_activities_correct {α : Type} (pages : Nat → List α)
    (total : Nat)
    (h1 : ∀ s, s < total → 0 < (pages s).length)
    (h2 : ∀ s, s ≤ total → s + (pages s).length ≤ total) :
    ∃ out, get_all_activities pages total (total + 1) = some out ∧
      out.length = total ∧ out = pagesFrom pages total (total + 1) 0 := by
  obtain ⟨hl, hlen⟩ := getAllActivitiesLoop_correct pages total h1 h2
    (total + 1) 0 (Nat.zero_le _) (by omega)
  exact ⟨pagesFrom pages total (total + 1) 0, hl, by rw [hlen]; omega, rfl⟩

/-- Witness for C1 on the concrete two-page server. -/
theorem get_all_activities_correct_witness :
    ∃ out, get_all_activities twoItemServer 2 3 = some out ∧
      out.length = 2 ∧ out = pagesFrom twoItemServer 2 3 0 :=
  get_all_activities_correct twoItemServer 2
    (fun s hs => by simp [twoItemServer, hs])
    (fun s _ => by
      unfold twoItemServer
      split
      · simp; omega
      · simp; omega)

/-- Writing a file preserves every existing file. -/
lemma fileExists_writeFile_of {files : Files} {n : String} (m : String)
    (c : List Nat) (h : fileExists files n = true) :
    fileExists (writeFile files m c) n = true := by
  simp only [fileExists] at h
  simp only [fileExists, writeFile, List.any_cons, h, Bool.or_true]

/-- Writing a file makes it exist. -/
lemma fileExists_writeFile_self (files : Files) (n : String) (c : List Nat) :
    fileExists (writeFile files n c) n = true := by
  simp [fileExists, writeFile]

/-- `download` never removes a file. -/
lemma download_files_mono {ft : String} {st : Nat} {ch : List (List Nat)}
    {fname : String} {files files' : Files} {res : DownloadResult}
    (h : download ft st ch fname files = some (res, files')) :
    ∀ n, fileExists files n = true → fileExists files' n = true := by
  unfold download at h
  split at h
  · split at h
    · simp only [Option.some.injEq, Prod.mk.injEq] at h
      exact fun n hn => h.2 ▸ hn
    · split at h
      · simp only [Option.some.injEq, Prod.mk.injEq] at h
        exact fun n hn => h.2 ▸ hn
      · simp only [Option.some.injEq, Prod.mk.injEq] at h
        intro n hn
        rw [← h.2]
        exact fileExists_writeFile_of fname (writtenContent ch) hn
  · exact absurd h (by simp)

/-- A normal return of `download` leaves the destination file on disk. -/
lemma download_ok_creates {ft : String} {st : Nat} {ch : List (List Nat)}
    {fname : String} {files files' : Files}
    (h : download ft st ch fname files = some (.ok, files')) :
    fileExists files' fname = true := by
  unfold download at h
  split at h
  · split at h
    · simp at h
    · split at h
      · simp at h
      · simp only [Option.some.injEq, Prod.mk.injEq] at h
        rw [← h.2]
        exact fileExists_writeFile_self files fname (writtenContent ch)
  · exact absurd h (by simp)

/-- The per-activity body never removes a file. -/
lemma processActivity_mono (resp : String → Nat × List (List Nat))
    (ft : String) (act : ActivityJson) (files : Files) :
    ∀ n, fileExists files n = true →
      fileExists (processActivity resp ft act files).1 n = true := by
  intro n hn
  unfold processActivity
  have hn1 : ∀ files1 : Files,
      (∀ m, fileExists files m = true → fileExists files1 m = true) →
      fileExists
        (if fileExists files1 (dataFilename act ft) = true then
          ((files1, ActOutcome.skipped) : Files × ActOutcome)
        else
          match download ft (resp act.activityId).1 (resp act.activityId).2
              (dataFilename act ft) files1 with
          | none => (files1, .assertRaised)
          | some (.ok, files2) => (files2, .downloaded)
          | some (_, files2) => (files2, .failed)).1 n = true := by
    intro files1 hmono
    split
    · exact hmono n hn
    · cases hdl : download ft (resp act.activityId).1 (resp act.activityId).2
          (dataFilename act ft) files1 with
      | none => simp [hdl, hmono n hn]
      | some pr =>
        obtain ⟨res, files2⟩ := pr
        have h2 := download_files_mono hdl n (hmono n hn)
        cases res <;> simp [hdl, h2]
  by_cases hj : fileExists files (jsonFilename act) = true
  · simp only [hj, if_true]
    exact hn1 files (fun m hm => hm)
  · simp only [hj, Bool.false_eq_true, if_false]
    exact hn1 (writeFile files (jsonFilename act) act.meta)
      (fun m hm => fileExists_writeFile_of _ _ hm)

/-- After the per-activity body, the sidecar JSON file of the activity is
always on disk. -/
lemma processActivity_json (resp : String → Nat × List (List Nat))
    (ft : String) (act : ActivityJson) (files : Files) :
    fileExists (processActivity resp ft act files).1 (jsonFilename act)
      = true := by
  unfold processActivity
  have hn1 : ∀ files1 : Files,
      fileExists files1 (jsonFilename act) = true →
      fileExists
        (if fileExists files1 (dataFilename act ft) = true then
          ((files1, ActOutcome.skipped) : Files × ActOutcome)
        else
          match download ft (resp act.activityId).1 (resp act.activityId).2
              (dataFilename act ft) files1 with
          | none => (files1, .assertRaised)
          | some (.ok, files2) => (files2, .downloaded)
          | some (_, files2) => (files2, .failed)).1 (jsonFilename act)
        = true := by
    intro files1 hj1
    split
    · exact hj1
    · cases hdl : download ft (resp act.activityId).1 (resp act.activityId).2
          (dataFilename act ft) files1 with
      | none => simp [hdl, hj1]
      | some pr =>
        obtain ⟨res, files2⟩ := pr
        have h2 := download_files_mono hdl (jsonFilename act) hj1
        cases res <;> simp [hdl, h2]
  by_cases hj : fileExists files (jsonFilename act) = true
  · simp only [hj, if_true]
    exact hn1 files hj
  · simp only [hj, Bool.false_eq_true, if_false]
    exact hn1 (writeFile files (jsonFilename act) act.meta)
      (fileExists_writeFile_self _ _ _)

/-- When the per-activity body skipped or downloaded, the data file of the
activity is on disk afterwards. -/
lemma processActivity_data (resp : String → Nat × List (List Nat))
    (ft : String) (act : ActivityJson) (files : Files)
    (h : (processActivity resp ft act files).2 = .skipped ∨
         (processActivity resp ft act files).2 = .downloaded) :
    fileExists (processActivity resp ft act files).1 (dataFilename act ft)
      = true := by
  unfold processActivity at h ⊢
  have hn1 : ∀ files1 : Files,
      ((if fileExists files1 (dataFilename act ft) = true then
          ((files1, ActOutcome.skipped) : Files × ActOutcome)
        else
          match download ft (resp act.activityId).1 (resp act.activityId).2
              (dataFilename act ft) files1 with
          | none => (files1, .assertRaised)
          | some (.ok, files2) => (files2, .downloaded)
          | some (_, files2) => (files2, .failed)).2 = .skipped ∨
       (if fileExists files1 (dataFilename act ft) = true then
          ((files1, ActOutcome.skipped) : Files × ActOutcome)
        else
          match download ft (resp act.activityId).1 (resp act.activityId).2
              (dataFilename act ft) files1 with
          | none => (files1, .assertRaised)
          | some (.ok, files2) => (files2, .downloaded)
          | some (_, files2) => (files2, .failed)).2 = .downloaded) →
      fileExists
        (if fileExists files1 (dataFilename act ft) = true then
          ((files1, ActOutcome.skipped) : Files × ActOutcome)
        else
          match download ft (resp act.activityId).1 (resp act.activityId).2
              (dataFilename act ft) files1 with
          | none => (files1, .assertRaised)
          | some (.ok, files2) => (files2, .downloaded)
          | some (_, files2) => (files2, .failed)).1 (dataFilename act ft)
        = true := by
    intro files1 h1
    by_cases hd : fileExists files1 (dataFilename act ft) = true
    · simp [hd]
    · simp only [hd, Bool.false_eq_true, if_false] at h1 ⊢
      cases hdl : download ft (resp act.activityId).1 (resp act.activityId).2
          (dataFilename act ft) files1 with
      | none => rw [hdl] at h1; simp at h1
      | some pr =>
        obtain ⟨res, files2⟩ := pr
        cases res with
        | ok => simpa using download_ok_creates hdl
        | filetypeError => rw [hdl] at h1; simp at h1
        | gcError => rw [hdl] at h1; simp at h1
  by_cases hj : fileExists files (jsonFilename act) = true
  · simp only [hj, if_true] at h ⊢
    exact hn1 files h
  · simp only [hj, Bool.false_eq_true, if_false] at h ⊢
    exact hn1 (writeFile files (jsonFilename act) act.meta) h

/-- When both the sidecar JSON file and the data file of an activity
already exist, the per-activity body changes nothing and skips. -/
lemma processActivity_skip (resp : String → Nat × List (List Nat))
    (ft : String) (act : ActivityJson) (files : Files)
    (hd : fileExists files (dataFilename act ft) = true)
    (hj : fileExists files (jsonFilename act) = true) :
    processActivity resp ft act files = (files, .skipped) := by
  unfold processActivity
  simp only [hj, if_true, hd]

/-- Loop invariants of `download_all`: files only accumulate, the error
counter only grows, and when no error was counted every processed
activity ends with its data and sidecar files on disk. -/
lemma downloadAllLoop_invariants (resp : String → Nat × List (List Nat))
    (ft : String) (cont : Bool) :
    ∀ (acts : List ActivityJson) (files : Files) (d s e : Nat)
      (f' : Files) (d' s' e' : Nat),
      downloadAllLoop resp ft cont acts files d s e = some (f', d', s', e') →
      (∀ n, fileExists files n = true → fileExists f' n = true) ∧
      e ≤ e' ∧
      (e' = e → ∀ b ∈ acts,
        fileExists f' (dataFilename b ft) = true ∧
        fileExists f' (jsonFilename b) = true) := by
  intro acts
  induction acts with
  | nil =>
    intro files d s e f' d' s' e' h
    simp only [downloadAllLoop, Option.some.injEq, Prod.mk.injEq] at h
    obtain ⟨hf, -, -, he⟩ := h
    exact ⟨fun n hn => hf ▸ hn, le_of_eq he,
      fun _ b hb => absurd hb (by simp)⟩
  | cons act rest ih =>
    intro files d s e f' d' s' e' h
    simp only [downloadAllLoop] at h
    cases hpa : processActivity resp ft act files with
    | mk files1 oc =>
    rw [hpa] at h
    have hmono : ∀ n, fileExists files n = true →
        fileExists files1 n = true := by
      intro n hn
      have hm := processActivity_mono resp ft act files n hn
      rwa [hpa] at hm
    have hjson : fileExists files1 (jsonFilename act) = true := by
      have hm := processActivity_json resp ft act files
      rwa [hpa] at hm
    cases oc with
    | skipped =>
      obtain ⟨ha, hb, hc⟩ := ih files1 d (s + 1) e f' d' s' e' h
      refine ⟨fun n hn => ha n (hmono n hn), hb, fun hee b hbmem => ?_⟩
      rcases List.mem_cons.mp hbmem with hbe | hbmem'
      · subst hbe
        have hdata : fileExists files1 (dataFilename b ft) = true := by
          have hm := processActivity_data resp ft b files
            (by rw [hpa]; exact Or.inl rfl)
          rwa [hpa] at hm
        exact ⟨ha _ hdata, ha _ hjson⟩
      · exact hc hee b hbmem'
    | downloaded =>
      obtain ⟨ha, hb, hc⟩ := ih files1 (d + 1) s e f' d' s' e' h
      refine ⟨fun n hn => ha n (hmono n hn), hb, fun hee b hbmem => ?_⟩
      rcases List.mem_cons.mp hbmem with hbe | hbmem'
      · subst hbe
        have hdata : fileExists files1 (dataFilename b ft) = true := by
          have hm := processActivity_data resp ft b files
            (by rw [hpa]; exact Or.inr rfl)
          rwa [hpa] at hm
        exact ⟨ha _ hdata, ha _ hjson⟩
      · exact hc hee b hbmem'
    | failed =>
      replace h : (if cont = true then
          downloadAllLoop resp ft cont rest files1 d s (e + 1) else none) =
          some (f', d', s', e') := h
      by_cases hcont : cont = true
      · rw [if_pos hcont] at h
        obtain ⟨ha, hb, _⟩ := ih files1 d s (e + 1) f' d' s' e' h
        exact ⟨fun n hn => ha n (hmono n hn), by omega,
          fun hee => absurd hb (by omega)⟩
      · rw [if_neg hcont] at h
        simp at h
    | assertRaised => simp at h

/-- Each processed activity bumps exactly one of the three counters. -/
lemma downloadAllLoop_counts (resp : String → Nat × List (List Nat))
    (ft : String) (cont : Bool) :
    ∀ (acts : List ActivityJson) (files : Files) (d s e : Nat)
      (f' : Files) (d' s' e' : Nat),
      downloadAllLoop resp ft cont acts files d s e = some (f', d', s', e') →
      d' + s' + e' = d + s + e + acts.length := by
  intro acts
  induction acts with
  | nil =>
    intro files d s e f' d' s' e' h
    simp only [downloadAllLoop, Option.some.injEq, Prod.mk.injEq] at h
    obtain ⟨-, hd, hs, he⟩ := h
    simp only [List.length_nil]
    omega
  | cons act rest ih =>
    intro files d s e f' d' s' e' h
    simp only [downloadAllLoop] at h
    simp only [List.length_cons]
    cases hpa : processActivity resp ft act files with
    | mk files1 oc =>
    rw [hpa] at h
    cases oc with
    | skipped => have hi := ih files1 d (s + 1) e f' d' s' e' h; omega
    | downloaded => have hi := ih files1 (d + 1) s e f' d' s' e' h; omega
    | failed =>
      replace h : (if cont = true then
          downloadAllLoop resp ft cont rest files1 d s (e + 1) else none) =
          some (f', d', s', e') := h
      by_cases hcont : cont = true
      · rw [if_pos hcont] at h
        have hi := ih files1 d s (e + 1) f' d' s' e' h
        omega
      · rw [if_neg hcont] at h
        simp at h
    | assertRaised => simp at h

/-- When every activity already has both its files on disk, the loop
leaves the filesystem untouched and skips everything. -/
lemma downloadAllLoop_skips (resp : String → Nat × List (List Nat))
    (ft : String) (cont : Bool) :
    ∀ (acts : List ActivityJson) (files : Files) (d s e : Nat),
      (∀ b ∈ acts, fileExists files (dataFilename b ft) = true ∧
        fileExists files (jsonFilename b) = true) →
      downloadAllLoop resp ft cont acts files d s e =
        some (files, d, s + acts.length, e) := by
  intro acts
  induction acts with
  | nil => intro files d s e _; simp [downloadAllLoop]
  | cons act rest ih =>
    intro files d s e hall
    obtain ⟨hdata, hjson⟩ := hall act (by simp)
    have hrest := ih files d (s + 1) e
      (fun b hb => hall b (List.mem_cons_of_mem _ hb))
    simp only [downloadAllLoop, List.length_cons]
    rw [processActivity_skip resp ft act files hdata hjson]
    have harith : s + (rest.length + 1) = (s + 1) + rest.length := by omega
    rw [harith]
    exact hrest

/-- C2: if a run of `download_all` completes with zero errors, re-running
it with the same arguments, the same remote activities and responses, and
the filesystem the first run left behind performs zero downloads, reports
every activity as skipped, counts zero errors and changes no file. -/
theorem download_all_idempotent (resp : String → Nat × List (List Nat))
    (ft : String) (cont : Bool) (acts : List ActivityJson)
    (files f1 : Files) (d s : Nat)
    (h : download_all resp ft cont acts files = some (f1, d, s, 0)) :
    download_all resp ft cont acts f1 = some (f1, 0, acts.length, 0) := by
  obtain ⟨-, -, hc⟩ :=
    downloadAllLoop_invariants resp ft cont acts files 0 0 0 f1 d s 0 h
  have hall := hc rfl
  have hrun := downloadAllLoop_skips resp ft cont acts f1 0 0 0 hall
  simpa [download_all] using hrun

/-- Witness for C2: one activity, downloaded on the first run; the second
run skips it and leaves the filesystem unchanged. -/
theorem download_all_idempotent_witness :
    download_all (fun _ => (200, [[1]])) "tcx" true
        [⟨"a1", "morning run", [9]⟩]
        [("activity_a1.tcx", [1]), ("activity_a1.json", [9])] =
      some ([("activity_a1.tcx", [1]), ("activity_a1.json", [9])], 0, 1, 0) :=
  download_all_idempotent (fun _ => (200, [[1]])) "tcx" true
    [⟨"a1", "morning run", [9]⟩] [] _ 1 0 rfl

/-- C9: when `download_all` runs with `continue_on_fail` set and returns,
the three counters partition the processed activities:
`n_downloaded + n_skipped + n_error` is the number of activities. -/
theorem download_all_counters (resp : String → Nat × List (List Nat))
    (ft : String) (acts : List ActivityJson) (files f' : Files)
    (d s e : Nat)
    (h : download_all resp ft true acts files = some (f', d, s, e)) :
    d + s + e = acts.length := by
  have hi := downloadAllLoop_counts resp ft true acts files 0 0 0 f' d s e h
  omega

/-- Witness for C9 on a concrete one-activity run. -/
theorem download_all_counters_witness :
    (1 : Nat) + 0 + 0 = ([⟨"a1", "morning run", [9]⟩] : List ActivityJson).length :=
  download_all_counters (fun _ => (200, [[1]])) "tcx"
    [⟨"a1", "morning run", [9]⟩] []
    [("activity_a1.tcx", [1]), ("activity_a1.json", [9])] 1 0 0 rfl

end Sportdata
